import Mathlib

/-!
# kubicorn: the Azure VM scale set resource driver

A shallow embedding of `cloud/azure/public/resources/vmscaleset.go`: the four
reconciliation phases `Actual`, `Expected`, `Apply` and `Delete` of the
`VMScaleSet` resource.

Conventions of the embedding.

* A Go method returning `(*cluster.Cluster, cloud.Resource, error)` becomes a
  function returning a `Run`: the list of calls it issued to its collaborators,
  in order, and its `Result`, which is either the returned triple (`nil` is
  `none`) or a Go run-time panic (failed type assertion, nil dereference).
* The collaborators living outside the file (the process-wide `Sdk.Compute`
  client, `compare.IsEqual`, the `azuremaps` catalog and
  `defaults.NewClusterDefaults`) are fields of a `Deps` record.
* Pointers whose target is never reassigned are represented by the value they
  point to.  The one variable whose address is stored while it is still being
  reassigned, the `id` variable of the two `range` loops of `Apply`, lives in an
  explicit heap of string cells.
* The receiver, the cluster model and the snapshots are non-nil; the
  `ServerPool` pointer of a `VMScaleSet` may be nil, as it is in every snapshot
  the driver builds.
* Logging and `fmt.Println` output are not part of the model.
-/

namespace Kubicorn

/-! ## Data model -/

/-- Go `error` values. -/
structure GoError where
  msg : String
  deriving DecidableEq, Repr

/-- Load balancer reference of a subnet (`cluster.LoadBalancer`). -/
structure LoadBalancer where
  BackendIDs : List String
  NATIDs : List String
  deriving DecidableEq, Repr

/-- Subnet of a server pool (`cluster.Subnet`). -/
structure Subnet where
  Identifier : String
  LoadBalancer : LoadBalancer
  deriving DecidableEq, Repr

/-- Server pool (`cluster.ServerPool`), with the fields the driver reads. -/
structure ServerPool where
  Identifier : String
  Name : String
  Type_ : String
  Image : String
  Size : String
  MaxCount : Int
  Subnets : List Subnet
  deriving DecidableEq, Repr

/-- Cluster model (`cluster.Cluster`), with the fields the driver reads. -/
structure Cluster where
  Name : String
  Location : String
  ServerPools : List ServerPool
  deriving DecidableEq, Repr

/-- Modelled from the spec: the constant `cluster.ServerPoolTypeMaster`, whose
declaration is outside the file; the spec names the role "master". -/
def ServerPoolTypeMaster : String := "master"

/-- Fields every Azure resource embeds (`Shared`). -/
structure Shared where
  Name : String
  Tags : List (String × String)
  Identifier : String
  deriving DecidableEq, Repr

/-- The `VMScaleSet` struct: used both as the driver (receiver `r`, with
`ServerPool` set) and as a snapshot (with `ServerPool` nil). -/
structure VMScaleSet extends Shared where
  ServerPool : Option ServerPool
  Image : String
  deriving DecidableEq, Repr

/-- A value of interface type `cloud.Resource`: a `*VMScaleSet`, or a resource of
some other kind. -/
inductive Resource where
  | vmScaleSet (v : VMScaleSet)
  | other (kind : String)
  deriving DecidableEq, Repr

/-! ## Provider request -/

/-- Heap of string cells; an address is an index into it. -/
abbrev Heap := List String

/-- The type `compute.SubResource`: `ID` is a `*string`, here the address of a cell. -/
structure SubResource where
  ID : Nat
  deriving DecidableEq, Repr

/-- The type `compute.VirtualMachineScaleSetIPConfiguration`. -/
structure IPConfiguration where
  Name : String
  SubnetID : String
  LoadBalancerBackendAddressPools : List SubResource
  LoadBalancerInboundNatPools : List SubResource
  deriving DecidableEq, Repr

/-- The type `compute.ImageReference`, as produced by the catalog. -/
structure ImageReference where
  Publisher : String
  Offer : String
  Sku : String
  Version : String
  deriving DecidableEq, Repr

/-- The type `compute.VirtualMachineScaleSetNetworkConfiguration`. -/
structure NetworkConfiguration where
  IPConfigurations : List IPConfiguration
  Primary : Bool
  deriving DecidableEq, Repr

/-- The type `compute.Sku`. -/
structure Sku where
  Name : String
  Tier : String
  Capacity : Int
  deriving DecidableEq, Repr

/-- The type `compute.Plan`. -/
structure Plan where
  Name : String
  Product : String
  PromotionCode : String
  Publisher : String
  deriving DecidableEq, Repr

/-- The `compute.VirtualMachineScaleSet` value `Apply` submits. -/
structure Parameters where
  Location : String
  OsType : String
  CreateOption : String
  ImageReference : ImageReference
  NetworkInterfaceConfigurations : List NetworkConfiguration
  UpgradePolicyMode : String
  Sku : Sku
  Type_ : String
  Plan : Plan
  deriving DecidableEq, Repr

/-- The `compute.VirtualMachineScaleSet` value the provider answers with; the
driver reads only its `ID`, a `*string` that may be nil. -/
structure ScaleSetResponse where
  ID : Option String
  deriving DecidableEq, Repr

/-! ## Collaborators and observable behaviour -/

/-- The `Sdk.Compute` client.  `CreateOrUpdate` and `Delete` give what the error
channel delivers; `CreateOrUpdate` sees the request together with the memory its
pointers refer to. -/
structure ComputeClient where
  Get : String → String → Except GoError ScaleSetResponse
  CreateOrUpdate : String → String → Parameters → Heap → Option GoError
  Delete : String → String → Option GoError

/-- Everything the driver calls outside its own file. -/
structure Deps where
  Sdk : ComputeClient
  IsEqual : VMScaleSet → VMScaleSet → Except GoError Bool
  GetImageReferenceFromImage : String → Except GoError ImageReference
  GetTierFromSize : String → String
  NewClusterDefaults : Cluster → Cluster

/-- A call issued to a collaborator. -/
inductive Event where
  | get (group name : String)
  | createOrUpdate (group name : String) (parameters : Parameters) (heap : Heap)
  | delete (group name : String)
  | getImageReferenceFromImage (image : String)
  | getTierFromSize (size : String)
  deriving DecidableEq, Repr

/-- Is the event a call to the provider client. -/
def Event.isProviderCall : Event → Bool
  | .get _ _ => true
  | .createOrUpdate _ _ _ _ => true
  | .delete _ _ => true
  | _ => false

/-- Is the event a create/update call. -/
def Event.isCreateOrUpdate : Event → Bool
  | .createOrUpdate _ _ _ _ => true
  | _ => false

/-- How a method ends: it returns its triple, or the Go run time panics. -/
inductive Result where
  | returned (cluster : Option Cluster) (resource : Option Resource) (err : Option GoError)
  | panicked
  deriving DecidableEq, Repr

/-- One execution of a method: the calls it issued, in order, and how it ended. -/
structure Run where
  events : List Event
  result : Result
  deriving DecidableEq, Repr

/-! ## The driver -/

/-- The method `immutableRender`: ignores the resource. -/
def immutableRender (d : Deps) (_newResource : VMScaleSet) (inaccurateCluster : Cluster) : Cluster :=
  d.NewClusterDefaults inaccurateCluster

/-- The method `Actual`. -/
def Actual (d : Deps) (r : VMScaleSet) (immutable : Cluster) : Run :=
  match r.ServerPool with
  | none => ⟨[], .panicked⟩
  | some sp =>
    let newResource : VMScaleSet :=
      { Name := r.Name, Tags := r.Tags, Identifier := sp.Identifier, ServerPool := none, Image := "" }
    if sp.Identifier ≠ "" then
      match d.Sdk.Get immutable.Name sp.Name with
      | .error err => ⟨[.get immutable.Name sp.Name], .returned none none (some err)⟩
      | .ok vss =>
        match vss.ID with
        | none => ⟨[.get immutable.Name sp.Name], .panicked⟩
        | some id =>
          let newResource := { newResource with Identifier := id }
          ⟨[.get immutable.Name sp.Name],
            .returned (some (immutableRender d newResource immutable)) (some (.vmScaleSet newResource)) none⟩
    else
      ⟨[], .returned (some (immutableRender d newResource immutable)) (some (.vmScaleSet newResource)) none⟩

/-- The method `Expected`. -/
def Expected (d : Deps) (r : VMScaleSet) (immutable : Cluster) : Run :=
  match r.ServerPool with
  | none => ⟨[], .panicked⟩
  | some sp =>
    let newResource : VMScaleSet :=
      { Name := r.Name, Tags := r.Tags, Identifier := sp.Identifier, ServerPool := none, Image := sp.Image }
    ⟨[], .returned (some (immutableRender d newResource immutable)) (some (.vmScaleSet newResource)) none⟩

/-- A loop `for _, id := range ids { pools = append(pools, compute.SubResource{ID: &id}) }`:
the variable `id` is one cell, allocated at loop entry; every iteration assigns
the next element to it and appends a `SubResource` holding its address. -/
def rangeAddrOf (heap : Heap) (ids : List String) : Heap × List SubResource :=
  ids.foldl (fun st v => (st.1.set heap.length v, st.2 ++ [⟨heap.length⟩])) (heap ++ [""], [])

/-- Body of the loop over `serverPool.Subnets` in `Apply`: builds `newIpConfig`. -/
def newIpConfig (heap : Heap) (serverPoolName : String) (subnet : Subnet) : Heap × IPConfiguration :=
  let b := rangeAddrOf heap subnet.LoadBalancer.BackendIDs
  let n := rangeAddrOf b.1 subnet.LoadBalancer.NATIDs
  (n.1, { Name := serverPoolName, SubnetID := subnet.Identifier,
          LoadBalancerBackendAddressPools := b.2, LoadBalancerInboundNatPools := n.2 })

/-- The loop over `serverPool.Subnets` in `Apply`, started in the given memory. -/
def subnetsLoop (serverPoolName : String) : Heap → List Subnet → Heap × List IPConfiguration
  | heap, [] => (heap, [])
  | heap, subnet :: rest =>
    let c := newIpConfig heap serverPoolName subnet
    let t := subnetsLoop serverPoolName c.1 rest
    (t.1, c.2 :: t.2)

/-- The loop over `immutable.ServerPools` in `Apply`, started in the given memory. -/
def serverPoolsLoop : Heap → List ServerPool → Heap × List IPConfiguration
  | heap, [] => (heap, [])
  | heap, serverPool :: rest =>
    if serverPool.Type_ = ServerPoolTypeMaster then
      let s := subnetsLoop serverPool.Name heap serverPool.Subnets
      let t := serverPoolsLoop s.1 rest
      (t.1, s.2 ++ t.2)
    else serverPoolsLoop heap rest

/-- The memory and the value of `ipConfigsToAdd` after the loops of `Apply`. -/
def ipConfigsToAdd (immutable : Cluster) : Heap × List IPConfiguration :=
  serverPoolsLoop [] immutable.ServerPools

/-- The value `parameters` of `Apply`. -/
def parameters (d : Deps) (sp : ServerPool) (immutable : Cluster) (imageRef : ImageReference)
    (ipConfigs : List IPConfiguration) : Parameters :=
  { Location := immutable.Location
    OsType := "Linux"
    CreateOption := "FromImage"
    ImageReference := imageRef
    NetworkInterfaceConfigurations := [{ IPConfigurations := ipConfigs, Primary := true }]
    UpgradePolicyMode := "Automatic"
    Sku := { Name := sp.Size, Tier := d.GetTierFromSize sp.Size, Capacity := sp.MaxCount }
    Type_ := ""
    Plan := { Name := "", Product := "", PromotionCode := "", Publisher := "" } }

/-- The tail of `Apply`, after the master branch: the new snapshot and the render. -/
def applyFinish (d : Deps) (r : VMScaleSet) (sp : ServerPool) (immutable : Cluster) : Result :=
  let newResource : VMScaleSet :=
    { Name := r.Name, Tags := r.Tags, Identifier := sp.Identifier, ServerPool := none, Image := "" }
  .returned (some (immutableRender d newResource immutable)) (some (.vmScaleSet newResource)) none

/-- The method `Apply`. -/
def Apply (d : Deps) (r : VMScaleSet) (actual expected : Resource) (immutable : Cluster) : Run :=
  match expected with
  | .other _ => ⟨[], .panicked⟩
  | .vmScaleSet applyResource =>
    match actual with
    | .other _ => ⟨[], .panicked⟩
    | .vmScaleSet actualResource =>
      match d.IsEqual actualResource applyResource with
      | .error err => ⟨[], .returned none none (some err)⟩
      | .ok true => ⟨[], .returned (some immutable) (some (.vmScaleSet applyResource)) none⟩
      | .ok false =>
        match r.ServerPool with
        | none => ⟨[], .panicked⟩
        | some sp =>
          if sp.Type_ = ServerPoolTypeMaster then
            let ip := ipConfigsToAdd immutable
            match d.GetImageReferenceFromImage sp.Image with
            | .error err => ⟨[.getImageReferenceFromImage sp.Image], .returned none none (some err)⟩
            | .ok imageRef =>
              let params := parameters d sp immutable imageRef ip.2
              let events := [.getImageReferenceFromImage sp.Image, .getTierFromSize sp.Size,
                .createOrUpdate immutable.Name applyResource.Name params ip.1]
              match d.Sdk.CreateOrUpdate immutable.Name applyResource.Name params ip.1 with
              | some err => ⟨events, .returned none none (some err)⟩
              | none => ⟨events, applyFinish d r sp immutable⟩
          else ⟨[], applyFinish d r sp immutable⟩

/-- The method `Delete`. -/
def Delete (d : Deps) (r : VMScaleSet) (actual : Resource) (immutable : Cluster) : Run :=
  match actual with
  | .other _ => ⟨[], .panicked⟩
  | .vmScaleSet deleteResource =>
    if deleteResource.Identifier = "" then
      ⟨[], .returned none none
        (some ⟨"Unable to delete VPC resource without ID [" ++ deleteResource.Name ++ "]"⟩)⟩
    else
      match d.Sdk.Delete immutable.Name deleteResource.Name with
      | some err => ⟨[.delete immutable.Name deleteResource.Name], .returned none none (some err)⟩
      | none =>
        let newResource : VMScaleSet :=
          { Name := r.Name, Tags := r.Tags, Identifier := "", ServerPool := none, Image := "" }
        ⟨[.delete immutable.Name deleteResource.Name],
          .returned (some (immutableRender d newResource immutable)) (some (.vmScaleSet newResource)) none⟩

/-! ## Reading a submitted request -/

/-- The string a `*string` of the request points to, in the given memory. -/
def deref (heap : Heap) (p : SubResource) : String := heap.getD p.ID ""

/-- An IP configuration with its pointers followed. -/
structure WiredSubnet where
  Name : String
  SubnetID : String
  BackendIDs : List String
  NATIDs : List String
  deriving DecidableEq, Repr

/-- What a reader of the request finds in an IP configuration, in the given memory. -/
def readIPConfiguration (heap : Heap) (c : IPConfiguration) : WiredSubnet :=
  { Name := c.Name, SubnetID := c.SubnetID
    BackendIDs := c.LoadBalancerBackendAddressPools.map (deref heap)
    NATIDs := c.LoadBalancerInboundNatPools.map (deref heap) }

/-- The network interface configurations of a create/update call, each with its
IP configurations as the provider reads them; empty for any other call. -/
def Event.wiredSubnets : Event → List (List WiredSubnet)
  | .createOrUpdate _ _ p heap =>
    p.NetworkInterfaceConfigurations.map
      (fun nic => nic.IPConfigurations.map (readIPConfiguration heap))
  | _ => []

/-- What is read back for one subnet after the two `range` loops: the last ID of
each list, once per element of the list. -/
def wiredSubnet (name : String) (s : Subnet) : WiredSubnet :=
  { Name := name, SubnetID := s.Identifier
    BackendIDs :=
      List.replicate s.LoadBalancer.BackendIDs.length (s.LoadBalancer.BackendIDs.getLastD "")
    NATIDs := List.replicate s.LoadBalancer.NATIDs.length (s.LoadBalancer.NATIDs.getLastD "") }

/-- The subnets of the given pools, pool by pool, as read back from the request. -/
def wiredPools : List ServerPool → List WiredSubnet
  | [] => []
  | p :: rest => p.Subnets.map (wiredSubnet p.Name) ++ wiredPools rest

/-- The server pools of role master, in the order of the cluster model. -/
def masterPools (immutable : Cluster) : List ServerPool :=
  immutable.ServerPools.filter (fun p => decide (p.Type_ = ServerPoolTypeMaster))

/-! ## Collaborators used in the examples -/

/-- Modelled from the spec: `compare.IsEqual`, which is outside the file, as
structural equality on name, tags, identifier and image. -/
def structuralIsEqual (actual expected : VMScaleSet) : Except GoError Bool :=
  .ok (decide (actual.Name = expected.Name ∧ actual.Tags = expected.Tags ∧
    actual.Identifier = expected.Identifier ∧ actual.Image = expected.Image))

/-- A provider client with fixed answers. -/
def fixedSdk (get : Except GoError ScaleSetResponse) (create delete : Option GoError) :
    ComputeClient :=
  { Get := fun _ _ => get, CreateOrUpdate := fun _ _ _ _ => create, Delete := fun _ _ => delete }

/-- A catalog that knows one image. -/
def exampleCatalog (image : String) : Except GoError ImageReference :=
  if image = "ubuntu" then .ok ⟨"Canonical", "UbuntuServer", "16.04-LTS", "latest"⟩
  else .error ⟨"unknown image"⟩

/-- A defaulting step that fills in an empty location. -/
def exampleDefaults (c : Cluster) : Cluster :=
  if c.Location = "" then { c with Location := "eastus" } else c

/-- The collaborators of the examples, around a given provider client. -/
def exampleDeps (sdk : ComputeClient) : Deps :=
  { Sdk := sdk, IsEqual := structuralIsEqual, GetImageReferenceFromImage := exampleCatalog
    GetTierFromSize := fun _ => "Standard", NewClusterDefaults := exampleDefaults }

/-- A provider client on which every call succeeds; `Get` answers the given ID. -/
def okSdk (id : Option String) : ComputeClient := fixedSdk (.ok ⟨id⟩) none none

/-- A subnet with the given identifier, backend-pool IDs and NAT-pool IDs. -/
def exampleSubnet (id : String) (backends nats : List String) : Subnet :=
  { Identifier := id, LoadBalancer := { BackendIDs := backends, NATIDs := nats } }

/-- A server pool of the examples. -/
def examplePool (name role identifier image : String) (subnets : List Subnet) : ServerPool :=
  { Identifier := identifier, Name := name, Type_ := role, Image := image, Size := "Standard_DS1"
    MaxCount := 1, Subnets := subnets }

/-- A driver bound to the given server pool. -/
def exampleDriver (sp : ServerPool) : VMScaleSet :=
  { Name := sp.Name, Tags := [("cluster", "demo")], Identifier := "", ServerPool := some sp
    Image := "" }

/-- A snapshot with the given identifier and image. -/
def exampleSnapshot (name identifier image : String) : VMScaleSet :=
  { Name := name, Tags := [("cluster", "demo")], Identifier := identifier, ServerPool := none
    Image := image }

/-- A master pool that is not provisioned yet. -/
def freshMaster : ServerPool :=
  examplePool "m1" "master" "" "ubuntu" [exampleSubnet "subnet-1" ["B1"] ["N1"]]

/-- A second master pool. -/
def secondMaster : ServerPool :=
  examplePool "m2" "master" "" "ubuntu" [exampleSubnet "subnet-2" ["B2"] []]

/-- A pool that is not a master. -/
def nodePool : ServerPool :=
  examplePool "n1" "node" "" "ubuntu" [exampleSubnet "subnet-3" ["B3"] []]

/-- A pool that is not a master, with an image the catalog does not know. -/
def nodePoolUnmapped : ServerPool :=
  examplePool "n1" "node" "" "no-such-image" [exampleSubnet "subnet-3" ["B3"] []]

/-- A master pool with an image the catalog does not know. -/
def masterUnmapped : ServerPool :=
  examplePool "m1" "master" "" "no-such-image" [exampleSubnet "subnet-1" ["B1"] ["N1"]]

/-- A master pool that records the identifier of its scale set. -/
def provisionedMaster : ServerPool :=
  examplePool "m1" "master" "vmss-1" "ubuntu" [exampleSubnet "subnet-1" ["B1"] ["N1"]]

/-- Two master pools, each with one subnet and one backend-pool ID, and a node pool. -/
def twoMasters : Cluster :=
  { Name := "demo", Location := "", ServerPools := [freshMaster, nodePool, secondMaster] }

/-- A cluster whose only pool is provisioned. -/
def convergedCluster : Cluster :=
  { Name := "demo", Location := "westus", ServerPools := [provisionedMaster] }

/-- One master pool whose subnet has two backend-pool IDs and two NAT-pool IDs. -/
def twoBackends : Cluster :=
  { Name := "demo", Location := "westus"
    ServerPools :=
      [examplePool "m1" "master" "" "ubuntu" [exampleSubnet "subnet-1" ["a", "b"] ["n1", "n2"]]] }

/-! ## Memory of the `range` loops -/

theorem set_length_append (heap : Heap) (c v : String) :
    (heap ++ [c]).set heap.length v = heap ++ [v] := by
  induction heap with
  | nil => rfl
  | cons x xs ih => simp [List.set] at ih ⊢

theorem rangeLoop_eq (heap : Heap) (ids : List String) :
    ∀ (c : String) (acc : List SubResource),
      ids.foldl (fun (st : Heap × List SubResource) v =>
          (st.1.set heap.length v, st.2 ++ [⟨heap.length⟩])) (heap ++ [c], acc)
        = (heap ++ [ids.getLastD c], acc ++ List.replicate ids.length ⟨heap.length⟩) := by
  induction ids with
  | nil => intro c acc; simp
  | cons x xs ih =>
    intro c acc
    simp only [List.foldl_cons, set_length_append, ih, List.getLastD_cons, List.length_cons,
      List.replicate_succ, List.append_assoc, List.singleton_append]

/-- After the loop the cell of `id` holds the last element, and every appended
`SubResource` points to that cell. -/
theorem rangeAddrOf_eq (heap : Heap) (ids : List String) :
    rangeAddrOf heap ids
      = (heap ++ [ids.getLastD ""], List.replicate ids.length ⟨heap.length⟩) := by
  unfold rangeAddrOf
  rw [rangeLoop_eq]; simp

theorem newIpConfig_eq (heap : Heap) (name : String) (s : Subnet) :
    newIpConfig heap name s =
      (heap ++ [s.LoadBalancer.BackendIDs.getLastD "", s.LoadBalancer.NATIDs.getLastD ""],
        { Name := name, SubnetID := s.Identifier
          LoadBalancerBackendAddressPools :=
            List.replicate s.LoadBalancer.BackendIDs.length ⟨heap.length⟩
          LoadBalancerInboundNatPools :=
            List.replicate s.LoadBalancer.NATIDs.length ⟨heap.length + 1⟩ }) := by
  simp [newIpConfig, rangeAddrOf_eq]

theorem deref_fst (heap rest : Heap) (b n : String) :
    deref (heap ++ [b, n] ++ rest) ⟨heap.length⟩ = b := by
  induction heap with
  | nil => simp [deref]
  | cons x xs ih => simpa [deref] using ih

theorem deref_snd (heap rest : Heap) (b n : String) :
    deref (heap ++ [b, n] ++ rest) ⟨heap.length + 1⟩ = n := by
  induction heap with
  | nil => simp [deref]
  | cons x xs ih => simpa [deref] using ih

/-- The subnet loop only extends the memory, and its IP configurations read the
same in every extension of the final memory. -/
theorem subnetsLoop_read (name : String) (ss : List Subnet) :
    ∀ heap : Heap, ∃ ext : Heap, (subnetsLoop name heap ss).1 = heap ++ ext ∧
      ∀ more : Heap, (subnetsLoop name heap ss).2.map
          (readIPConfiguration ((subnetsLoop name heap ss).1 ++ more))
        = ss.map (wiredSubnet name) := by
  induction ss with
  | nil => intro heap; exact ⟨[], by simp [subnetsLoop]⟩
  | cons s rest ih =>
    intro heap
    obtain ⟨ext, hext, hread⟩ := ih (newIpConfig heap name s).1
    refine ⟨[s.LoadBalancer.BackendIDs.getLastD "", s.LoadBalancer.NATIDs.getLastD ""] ++ ext,
      ?_, ?_⟩
    · simp only [subnetsLoop, hext]
      rw [newIpConfig_eq]; simp
    · intro more
      simp only [subnetsLoop, List.map_cons, hread]
      congr 1
      rw [hext, newIpConfig_eq]
      simp only [readIPConfiguration, wiredSubnet, List.map_replicate, List.append_assoc]
      rw [← List.append_assoc, deref_fst, deref_snd]

/-- The pool loop only extends the memory, and its IP configurations read the
same in every extension of the final memory. -/
theorem serverPoolsLoop_read (pools : List ServerPool) :
    ∀ heap : Heap, ∃ ext : Heap, (serverPoolsLoop heap pools).1 = heap ++ ext ∧
      ∀ more : Heap, (serverPoolsLoop heap pools).2.map
          (readIPConfiguration ((serverPoolsLoop heap pools).1 ++ more))
        = wiredPools (pools.filter (fun p => decide (p.Type_ = ServerPoolTypeMaster))) := by
  induction pools with
  | nil => intro heap; exact ⟨[], by simp [serverPoolsLoop, wiredPools]⟩
  | cons p rest ih =>
    intro heap
    by_cases hp : p.Type_ = ServerPoolTypeMaster
    · obtain ⟨e1, h1, r1⟩ := subnetsLoop_read p.Name p.Subnets heap
      obtain ⟨e2, h2, r2⟩ := ih (subnetsLoop p.Name heap p.Subnets).1
      refine ⟨e1 ++ e2, ?_, ?_⟩
      · simp only [serverPoolsLoop, hp, if_true, h2]
        rw [h1, List.append_assoc]
      · intro more
        simp only [serverPoolsLoop, hp, if_true, List.map_append, r2, decide_True,
          List.filter_cons_of_pos, wiredPools]
        rw [h2, List.append_assoc, r1]
    · simpa [serverPoolsLoop, hp] using ih heap

/-- The IP configurations of the request read back as the subnets of the master
pools, pool by pool. -/
theorem ipConfigsToAdd_read (immutable : Cluster) :
    (ipConfigsToAdd immutable).2.map (readIPConfiguration (ipConfigsToAdd immutable).1)
      = wiredPools (masterPools immutable) := by
  obtain ⟨_, _, h⟩ := serverPoolsLoop_read immutable.ServerPools []
  simpa [ipConfigsToAdd, masterPools] using h []

/-! ## Paths through `Apply` -/

/-- The calls of `Apply` on a master driver with unequal snapshots and a mapped
image, whatever the provider then reports. -/
theorem apply_master_events (d : Deps) (r : VMScaleSet) (sp : ServerPool) (a e : VMScaleSet)
    (M : Cluster) (imageRef : ImageReference)
    (hsp : r.ServerPool = some sp) (hm : sp.Type_ = ServerPoolTypeMaster)
    (hne : d.IsEqual a e = .ok false)
    (himg : d.GetImageReferenceFromImage sp.Image = .ok imageRef) :
    (Apply d r (.vmScaleSet a) (.vmScaleSet e) M).events =
      [.getImageReferenceFromImage sp.Image, .getTierFromSize sp.Size,
        .createOrUpdate M.Name e.Name (parameters d sp M imageRef (ipConfigsToAdd M).2)
          (ipConfigsToAdd M).1] := by
  simp only [Apply, hne, hsp, hm, if_true, himg]
  cases d.Sdk.CreateOrUpdate M.Name e.Name (parameters d sp M imageRef (ipConfigsToAdd M).2)
    (ipConfigsToAdd M).1 <;> rfl

/-- The request of `Apply` has one network interface configuration, which reads
back as the subnets of the master pools. -/
theorem request_wiredSubnets (d : Deps) (sp : ServerPool) (M : Cluster) (imageRef : ImageReference)
    (group name : String) :
    (Event.createOrUpdate group name (parameters d sp M imageRef (ipConfigsToAdd M).2)
      (ipConfigsToAdd M).1).wiredSubnets = [wiredPools (masterPools M)] := by
  simp [Event.wiredSubnets, parameters, ipConfigsToAdd_read]

/-! ## The claims -/

/-- C1: `Delete` on a `VMScaleSet` snapshot whose Identifier is empty returns an
error, with no cluster model and no snapshot, and issues no call at all (so
`Sdk.Compute.Delete` is not invoked). -/
theorem delete_without_identifier_fails (d : Deps) (r actual : VMScaleSet) (M : Cluster)
    (h : actual.Identifier = "") :
    Delete d r (.vmScaleSet actual) M =
      ⟨[], .returned none none
        (some ⟨"Unable to delete VPC resource without ID [" ++ actual.Name ++ "]"⟩)⟩ := by
  simp [Delete, h]

theorem delete_without_identifier_fails_witness :
    (exampleSnapshot "m1" "" "").Identifier = "" ∧
    Delete (exampleDeps (okSdk none)) (exampleDriver freshMaster)
        (.vmScaleSet (exampleSnapshot "m1" "" "")) twoMasters =
      ⟨[], .returned none none (some ⟨"Unable to delete VPC resource without ID [m1]"⟩)⟩ :=
  ⟨rfl, delete_without_identifier_fails (exampleDeps (okSdk none)) (exampleDriver freshMaster)
    (exampleSnapshot "m1" "" "") twoMasters rfl⟩

/-- C2: when the comparator reports equality without error, `Apply` returns the
model it was given (not a rendered one), the expected snapshot and no error, and
issues no call: no provider call and no catalog lookup.  The driver is arbitrary;
its server pool is not even read. -/
theorem apply_equal_returns_model (d : Deps) (r actual expected : VMScaleSet) (M : Cluster)
    (h : d.IsEqual actual expected = .ok true) :
    Apply d r (.vmScaleSet actual) (.vmScaleSet expected) M =
      ⟨[], .returned (some M) (some (.vmScaleSet expected)) none⟩ := by
  simp [Apply, h]

theorem apply_equal_returns_model_witness :
    (exampleDeps (okSdk none)).IsEqual (exampleSnapshot "n1" "vmss-9" "ubuntu")
        (exampleSnapshot "n1" "vmss-9" "ubuntu") = .ok true ∧
    (exampleDeps (okSdk none)).NewClusterDefaults twoMasters ≠ twoMasters ∧
    Apply (exampleDeps (okSdk none)) (exampleDriver nodePool)
        (.vmScaleSet (exampleSnapshot "n1" "vmss-9" "ubuntu"))
        (.vmScaleSet (exampleSnapshot "n1" "vmss-9" "ubuntu")) twoMasters =
      ⟨[], .returned (some twoMasters)
        (some (.vmScaleSet (exampleSnapshot "n1" "vmss-9" "ubuntu"))) none⟩ :=
  ⟨rfl, by decide,
    apply_equal_returns_model (exampleDeps (okSdk none)) (exampleDriver nodePool)
      (exampleSnapshot "n1" "vmss-9" "ubuntu") (exampleSnapshot "n1" "vmss-9" "ubuntu") twoMasters
      rfl⟩

/-- C3, at a converged master pool with a mapped image: the pool records the
identifier `vmss-1` and `Get` answers `vmss-1`, yet the snapshot of `Actual` has an
empty `Image` while that of `Expected` has the pool's image, the structural
comparator finds them unequal, and `Apply` submits one create/update request. -/
theorem converged_apply_resubmits :
    (Actual (exampleDeps (okSdk (some "vmss-1"))) (exampleDriver provisionedMaster)
        convergedCluster).result =
      .returned (some convergedCluster) (some (.vmScaleSet (exampleSnapshot "m1" "vmss-1" "")))
        none ∧
    (Expected (exampleDeps (okSdk (some "vmss-1"))) (exampleDriver provisionedMaster)
        convergedCluster).result =
      .returned (some convergedCluster)
        (some (.vmScaleSet (exampleSnapshot "m1" "vmss-1" "ubuntu"))) none ∧
    structuralIsEqual (exampleSnapshot "m1" "vmss-1" "") (exampleSnapshot "m1" "vmss-1" "ubuntu")
      = .ok false ∧
    ((Apply (exampleDeps (okSdk (some "vmss-1"))) (exampleDriver provisionedMaster)
        (.vmScaleSet (exampleSnapshot "m1" "vmss-1" ""))
        (.vmScaleSet (exampleSnapshot "m1" "vmss-1" "ubuntu"))
        convergedCluster).events.filter Event.isCreateOrUpdate).length = 1 :=
  ⟨rfl, rfl, rfl, rfl⟩

/-- C4: on a driver bound to a server pool, `Actual` issues exactly one `Get` when
the pool's Identifier is non-empty and no call when it is empty.  With an empty
Identifier it succeeds with a snapshot of empty Identifier carrying the driver's
Name and Tags; with a non-empty one, when `Get` answers an identifier the snapshot
carries that identifier, and when `Get` errors `Actual` returns that error with no
model and no snapshot. -/
theorem actual_queries_iff_identifier (d : Deps) (r : VMScaleSet) (sp : ServerPool) (M : Cluster)
    (hsp : r.ServerPool = some sp) :
    (Actual d r M).events = (if sp.Identifier = "" then [] else [.get M.Name sp.Name]) ∧
    (sp.Identifier = "" →
      Actual d r M = ⟨[], .returned (some (d.NewClusterDefaults M))
        (some (.vmScaleSet
          { Name := r.Name, Tags := r.Tags, Identifier := "", ServerPool := none, Image := "" }))
        none⟩) ∧
    (∀ id : String, sp.Identifier ≠ "" → d.Sdk.Get M.Name sp.Name = .ok ⟨some id⟩ →
      Actual d r M = ⟨[.get M.Name sp.Name], .returned (some (d.NewClusterDefaults M))
        (some (.vmScaleSet
          { Name := r.Name, Tags := r.Tags, Identifier := id, ServerPool := none, Image := "" }))
        none⟩) ∧
    (∀ err : GoError, sp.Identifier ≠ "" → d.Sdk.Get M.Name sp.Name = .error err →
      Actual d r M = ⟨[.get M.Name sp.Name], .returned none none (some err)⟩) := by
  refine ⟨?_, ?_, ?_, ?_⟩
  · by_cases hid : sp.Identifier = ""
    · simp [Actual, hsp, hid]
    · simp only [Actual, hsp, hid, ne_eq, not_false_eq_true, if_true, if_false]
      cases hget : d.Sdk.Get M.Name sp.Name with
      | error err => rfl
      | ok vss => cases hv : vss.ID <;> simp [hv]
  · intro hid
    simp [Actual, hsp, hid, immutableRender]
  · intro id hid hget
    simp [Actual, hsp, hid, hget, immutableRender]
  · intro err hid hget
    simp [Actual, hsp, hid, hget]

theorem actual_queries_iff_identifier_witness :
    Actual (exampleDeps (okSdk (some "vmss-1"))) (exampleDriver freshMaster) twoMasters =
      ⟨[], .returned (some (exampleDefaults twoMasters))
        (some (.vmScaleSet (exampleSnapshot "m1" "" ""))) none⟩ ∧
    Actual (exampleDeps (okSdk (some "vmss-1"))) (exampleDriver provisionedMaster)
        convergedCluster =
      ⟨[.get "demo" "m1"], .returned (some (exampleDefaults convergedCluster))
        (some (.vmScaleSet (exampleSnapshot "m1" "vmss-1" ""))) none⟩ ∧
    Actual (exampleDeps (fixedSdk (.error ⟨"not found"⟩) none none))
        (exampleDriver provisionedMaster) convergedCluster =
      ⟨[.get "demo" "m1"], .returned none none (some ⟨"not found"⟩)⟩ :=
  ⟨(actual_queries_iff_identifier (exampleDeps (okSdk (some "vmss-1"))) (exampleDriver freshMaster)
      freshMaster twoMasters rfl).2.1 rfl,
    (actual_queries_iff_identifier (exampleDeps (okSdk (some "vmss-1")))
      (exampleDriver provisionedMaster) provisionedMaster convergedCluster rfl).2.2.1
      "vmss-1" (by decide) rfl,
    (actual_queries_iff_identifier (exampleDeps (fixedSdk (.error ⟨"not found"⟩) none none))
      (exampleDriver provisionedMaster) provisionedMaster convergedCluster rfl).2.2.2
      ⟨"not found"⟩ (by decide) rfl⟩

/-- C5 fails for a driver bound to a pool that is not a master: in a cluster with
two master pools wired to `B1` and `B2`, with unequal snapshots and a mapped image,
`Apply` issues no call at all, hence no create/update request. -/
theorem apply_node_driver_submits_nothing :
    masterPools twoMasters = [freshMaster, secondMaster] ∧
    (exampleDeps (okSdk none)).IsEqual (exampleSnapshot "n1" "" "")
      (exampleSnapshot "n1" "" "ubuntu") = .ok false ∧
    (exampleDeps (okSdk none)).GetImageReferenceFromImage nodePool.Image =
      .ok ⟨"Canonical", "UbuntuServer", "16.04-LTS", "latest"⟩ ∧
    (Apply (exampleDeps (okSdk none)) (exampleDriver nodePool)
      (.vmScaleSet (exampleSnapshot "n1" "" "")) (.vmScaleSet (exampleSnapshot "n1" "" "ubuntu"))
      twoMasters).events = [] :=
  ⟨rfl, rfl, rfl, rfl⟩

/-- C5, amended: in a cluster model whose master pools are two pools, each with one
subnet whose load balancer has one backend-pool ID (`B1`, `B2`), `Apply` on a driver
bound to a master pool, with unequal snapshots and a mapped image, issues a
create/update request whose single network interface configuration has exactly two
IP configurations, the first referencing the first subnet and `B1`, the second the
second subnet and `B2`. -/
theorem apply_master_wires_both_masters (d : Deps) (r : VMScaleSet) (sp : ServerPool)
    (a e : VMScaleSet) (M : Cluster) (imageRef : ImageReference) (p1 p2 : ServerPool)
    (s1 s2 : Subnet) (B1 B2 : String)
    (hsp : r.ServerPool = some sp) (hm : sp.Type_ = ServerPoolTypeMaster)
    (hne : d.IsEqual a e = .ok false)
    (himg : d.GetImageReferenceFromImage sp.Image = .ok imageRef)
    (hpools : masterPools M = [p1, p2])
    (h1 : p1.Subnets = [s1]) (hb1 : s1.LoadBalancer.BackendIDs = [B1])
    (h2 : p2.Subnets = [s2]) (hb2 : s2.LoadBalancer.BackendIDs = [B2]) :
    ∃ (params : Parameters) (heap : Heap) (w1 w2 : WiredSubnet),
      (Apply d r (.vmScaleSet a) (.vmScaleSet e) M).events =
        [.getImageReferenceFromImage sp.Image, .getTierFromSize sp.Size,
          .createOrUpdate M.Name e.Name params heap] ∧
      (Event.createOrUpdate M.Name e.Name params heap).wiredSubnets = [[w1, w2]] ∧
      w1.SubnetID = s1.Identifier ∧ w1.BackendIDs = [B1] ∧
      w2.SubnetID = s2.Identifier ∧ w2.BackendIDs = [B2] := by
  refine ⟨parameters d sp M imageRef (ipConfigsToAdd M).2, (ipConfigsToAdd M).1,
    wiredSubnet p1.Name s1, wiredSubnet p2.Name s2,
    apply_master_events d r sp a e M imageRef hsp hm hne himg, ?_, rfl, ?_, rfl, ?_⟩
  · rw [request_wiredSubnets, hpools]
    simp [wiredPools, h1, h2]
  · simp [wiredSubnet, hb1]
  · simp [wiredSubnet, hb2]

theorem apply_master_wires_both_masters_witness :
    ∃ (params : Parameters) (heap : Heap) (w1 w2 : WiredSubnet),
      (Apply (exampleDeps (okSdk none)) (exampleDriver freshMaster)
        (.vmScaleSet (exampleSnapshot "m1" "" "")) (.vmScaleSet (exampleSnapshot "m1" "" "ubuntu"))
        twoMasters).events =
        [.getImageReferenceFromImage "ubuntu", .getTierFromSize "Standard_DS1",
          .createOrUpdate "demo" "m1" params heap] ∧
      (Event.createOrUpdate "demo" "m1" params heap).wiredSubnets = [[w1, w2]] ∧
      w1.SubnetID = "subnet-1" ∧ w1.BackendIDs = ["B1"] ∧
      w2.SubnetID = "subnet-2" ∧ w2.BackendIDs = ["B2"] :=
  apply_master_wires_both_masters (exampleDeps (okSdk none)) (exampleDriver freshMaster)
    freshMaster (exampleSnapshot "m1" "" "") (exampleSnapshot "m1" "" "ubuntu") twoMasters
    ⟨"Canonical", "UbuntuServer", "16.04-LTS", "latest"⟩ freshMaster secondMaster
    (exampleSubnet "subnet-1" ["B1"] ["N1"]) (exampleSubnet "subnet-2" ["B2"] [])
    "B1" "B2" rfl rfl rfl rfl rfl rfl rfl rfl rfl

/-- C6 fails for a driver bound to a pool that is not a master: with an image the
catalog does not know and unequal snapshots, `Apply` makes no lookup and succeeds. -/
theorem apply_node_driver_unmapped_image_succeeds :
    (exampleDeps (okSdk none)).GetImageReferenceFromImage nodePoolUnmapped.Image =
      .error ⟨"unknown image"⟩ ∧
    (exampleDeps (okSdk none)).IsEqual (exampleSnapshot "n1" "" "")
      (exampleSnapshot "n1" "" "no-such-image") = .ok false ∧
    Apply (exampleDeps (okSdk none)) (exampleDriver nodePoolUnmapped)
      (.vmScaleSet (exampleSnapshot "n1" "" ""))
      (.vmScaleSet (exampleSnapshot "n1" "" "no-such-image")) twoMasters =
      ⟨[], .returned (some (exampleDefaults twoMasters))
        (some (.vmScaleSet (exampleSnapshot "n1" "" ""))) none⟩ :=
  ⟨rfl, rfl, rfl⟩

/-- C6, amended: on a driver bound to a master pool whose image has no mapping in
the catalog, with unequal snapshots, `Apply` returns the error of the lookup, with
no cluster model and no snapshot, and its only call is that lookup: no
create/update request is issued. -/
theorem apply_master_unmapped_image_fails (d : Deps) (r : VMScaleSet) (sp : ServerPool)
    (a e : VMScaleSet) (M : Cluster) (err : GoError)
    (hsp : r.ServerPool = some sp) (hm : sp.Type_ = ServerPoolTypeMaster)
    (hne : d.IsEqual a e = .ok false)
    (himg : d.GetImageReferenceFromImage sp.Image = .error err) :
    Apply d r (.vmScaleSet a) (.vmScaleSet e) M =
      ⟨[.getImageReferenceFromImage sp.Image], .returned none none (some err)⟩ := by
  simp [Apply, hne, hsp, hm, himg]

theorem apply_master_unmapped_image_fails_witness :
    Apply (exampleDeps (okSdk none)) (exampleDriver masterUnmapped)
      (.vmScaleSet (exampleSnapshot "m1" "" ""))
      (.vmScaleSet (exampleSnapshot "m1" "" "no-such-image")) twoMasters =
      ⟨[.getImageReferenceFromImage "no-such-image"],
        .returned none none (some ⟨"unknown image"⟩)⟩ :=
  apply_master_unmapped_image_fails (exampleDeps (okSdk none)) (exampleDriver masterUnmapped)
    masterUnmapped (exampleSnapshot "m1" "" "") (exampleSnapshot "m1" "" "no-such-image")
    twoMasters ⟨"unknown image"⟩ rfl rfl rfl rfl

/-- C7 fails: when the submitted create/update reports an error, `Apply` returns
that error with a nil cluster model; the model it was given is not returned. -/
theorem apply_failed_create_returns_no_model :
    (Apply (exampleDeps (fixedSdk (.ok ⟨none⟩) (some ⟨"quota exceeded"⟩) none))
      (exampleDriver freshMaster) (.vmScaleSet (exampleSnapshot "m1" "" ""))
      (.vmScaleSet (exampleSnapshot "m1" "" "ubuntu")) twoMasters).result =
      .returned none none (some ⟨"quota exceeded"⟩) ∧
    ¬ ∃ res : Option Resource,
      (Apply (exampleDeps (fixedSdk (.ok ⟨none⟩) (some ⟨"quota exceeded"⟩) none))
        (exampleDriver freshMaster) (.vmScaleSet (exampleSnapshot "m1" "" ""))
        (.vmScaleSet (exampleSnapshot "m1" "" "ubuntu")) twoMasters).result =
        .returned (some twoMasters) res (some ⟨"quota exceeded"⟩) := by
  refine ⟨rfl, ?_⟩
  rintro ⟨res, h⟩
  have h0 : (Apply (exampleDeps (fixedSdk (.ok ⟨none⟩) (some ⟨"quota exceeded"⟩) none))
      (exampleDriver freshMaster) (.vmScaleSet (exampleSnapshot "m1" "" ""))
      (.vmScaleSet (exampleSnapshot "m1" "" "ubuntu")) twoMasters).result =
      .returned none none (some ⟨"quota exceeded"⟩) := rfl
  rw [h0] at h
  cases h

/-- C7, amended: when `Apply` submits a create/update request (master driver,
unequal snapshots, mapped image) and the provider reports an error, `Apply` returns
that error together with no cluster model and no snapshot. -/
theorem apply_failed_create_returns_error (d : Deps) (r : VMScaleSet) (sp : ServerPool)
    (a e : VMScaleSet) (M : Cluster) (imageRef : ImageReference) (err : GoError)
    (hsp : r.ServerPool = some sp) (hm : sp.Type_ = ServerPoolTypeMaster)
    (hne : d.IsEqual a e = .ok false)
    (himg : d.GetImageReferenceFromImage sp.Image = .ok imageRef)
    (hcreate : d.Sdk.CreateOrUpdate M.Name e.Name
      (parameters d sp M imageRef (ipConfigsToAdd M).2) (ipConfigsToAdd M).1 = some err) :
    Apply d r (.vmScaleSet a) (.vmScaleSet e) M =
      ⟨[.getImageReferenceFromImage sp.Image, .getTierFromSize sp.Size,
          .createOrUpdate M.Name e.Name (parameters d sp M imageRef (ipConfigsToAdd M).2)
            (ipConfigsToAdd M).1],
        .returned none none (some err)⟩ := by
  simp [Apply, hne, hsp, hm, himg, hcreate]

theorem apply_failed_create_returns_error_witness :
    Apply (exampleDeps (fixedSdk (.ok ⟨none⟩) (some ⟨"quota exceeded"⟩) none))
      (exampleDriver freshMaster) (.vmScaleSet (exampleSnapshot "m1" "" ""))
      (.vmScaleSet (exampleSnapshot "m1" "" "ubuntu")) convergedCluster =
      ⟨[.getImageReferenceFromImage "ubuntu", .getTierFromSize "Standard_DS1",
          .createOrUpdate "demo" "m1"
            (parameters (exampleDeps (fixedSdk (.ok ⟨none⟩) (some ⟨"quota exceeded"⟩) none))
              freshMaster convergedCluster ⟨"Canonical", "UbuntuServer", "16.04-LTS", "latest"⟩
              (ipConfigsToAdd convergedCluster).2)
            (ipConfigsToAdd convergedCluster).1],
        .returned none none (some ⟨"quota exceeded"⟩)⟩ :=
  apply_failed_create_returns_error
    (exampleDeps (fixedSdk (.ok ⟨none⟩) (some ⟨"quota exceeded"⟩) none))
    (exampleDriver freshMaster) freshMaster (exampleSnapshot "m1" "" "")
    (exampleSnapshot "m1" "" "ubuntu") convergedCluster
    ⟨"Canonical", "UbuntuServer", "16.04-LTS", "latest"⟩ ⟨"quota exceeded"⟩
    rfl rfl rfl rfl rfl

/-- C8 fails in its second half: on a driver whose pool has an empty Identifier,
after an `Apply` whose create/update succeeded, `Actual` on the same driver with the
model `Apply` returned, against a provider whose `Get` answers `vmss-1`, issues no
`Get` and returns a snapshot whose Identifier is still empty. -/
theorem actual_after_apply_still_unprovisioned :
    freshMaster.Identifier = "" ∧
    Apply (exampleDeps (okSdk none)) (exampleDriver freshMaster)
      (.vmScaleSet (exampleSnapshot "m1" "" "")) (.vmScaleSet (exampleSnapshot "m1" "" "ubuntu"))
      twoMasters =
      ⟨[.getImageReferenceFromImage "ubuntu", .getTierFromSize "Standard_DS1",
          .createOrUpdate "demo" "m1"
            (parameters (exampleDeps (okSdk none)) freshMaster twoMasters
              ⟨"Canonical", "UbuntuServer", "16.04-LTS", "latest"⟩ (ipConfigsToAdd twoMasters).2)
            (ipConfigsToAdd twoMasters).1],
        .returned (some (exampleDefaults twoMasters))
          (some (.vmScaleSet (exampleSnapshot "m1" "" ""))) none⟩ ∧
    (exampleDeps (okSdk (some "vmss-1"))).Sdk.Get (exampleDefaults twoMasters).Name
      freshMaster.Name = .ok ⟨some "vmss-1"⟩ ∧
    Actual (exampleDeps (okSdk (some "vmss-1"))) (exampleDriver freshMaster)
      (exampleDefaults twoMasters) =
      ⟨[], .returned (some (exampleDefaults twoMasters))
        (some (.vmScaleSet (exampleSnapshot "m1" "" ""))) none⟩ :=
  ⟨rfl, rfl, rfl, rfl⟩

/-- C8, amended: on a driver whose server pool has an empty Identifier, `Actual`
issues no call and returns a snapshot of empty Identifier; an `Apply` whose
create/update succeeded returns the rendered model and a snapshot of empty
Identifier; and `Actual` on the same driver with the model `Apply` returned, against
any provider, again issues no `Get` and returns a snapshot of empty Identifier. -/
theorem actual_after_apply_empty_identifier (d d2 : Deps) (r : VMScaleSet) (sp : ServerPool)
    (a e : VMScaleSet) (M : Cluster) (imageRef : ImageReference)
    (hsp : r.ServerPool = some sp) (hid : sp.Identifier = "")
    (hm : sp.Type_ = ServerPoolTypeMaster)
    (hne : d.IsEqual a e = .ok false)
    (himg : d.GetImageReferenceFromImage sp.Image = .ok imageRef)
    (hcreate : d.Sdk.CreateOrUpdate M.Name e.Name
      (parameters d sp M imageRef (ipConfigsToAdd M).2) (ipConfigsToAdd M).1 = none) :
    Actual d r M = ⟨[], .returned (some (d.NewClusterDefaults M))
      (some (.vmScaleSet
        { Name := r.Name, Tags := r.Tags, Identifier := "", ServerPool := none, Image := "" }))
      none⟩ ∧
    (Apply d r (.vmScaleSet a) (.vmScaleSet e) M).result =
      .returned (some (d.NewClusterDefaults M))
        (some (.vmScaleSet
          { Name := r.Name, Tags := r.Tags, Identifier := "", ServerPool := none, Image := "" }))
        none ∧
    Actual d2 r (d.NewClusterDefaults M) =
      ⟨[], .returned (some (d2.NewClusterDefaults (d.NewClusterDefaults M)))
        (some (.vmScaleSet
          { Name := r.Name, Tags := r.Tags, Identifier := "", ServerPool := none, Image := "" }))
        none⟩ := by
  refine ⟨?_, ?_, ?_⟩
  · simp [Actual, hsp, hid, immutableRender]
  · simp [Apply, hne, hsp, hm, himg, hcreate, applyFinish, hid, immutableRender]
  · simp [Actual, hsp, hid, immutableRender]

theorem actual_after_apply_empty_identifier_witness :
    Actual (exampleDeps (okSdk none)) (exampleDriver freshMaster) twoMasters =
      ⟨[], .returned (some (exampleDefaults twoMasters))
        (some (.vmScaleSet (exampleSnapshot "m1" "" ""))) none⟩ ∧
    (Apply (exampleDeps (okSdk none)) (exampleDriver freshMaster)
      (.vmScaleSet (exampleSnapshot "m1" "" "")) (.vmScaleSet (exampleSnapshot "m1" "" "ubuntu"))
      twoMasters).result =
      .returned (some (exampleDefaults twoMasters))
        (some (.vmScaleSet (exampleSnapshot "m1" "" ""))) none ∧
    Actual (exampleDeps (okSdk (some "vmss-1"))) (exampleDriver freshMaster)
      (exampleDefaults twoMasters) =
      ⟨[], .returned (some (exampleDefaults (exampleDefaults twoMasters)))
        (some (.vmScaleSet (exampleSnapshot "m1" "" ""))) none⟩ :=
  actual_after_apply_empty_identifier (exampleDeps (okSdk none))
    (exampleDeps (okSdk (some "vmss-1"))) (exampleDriver freshMaster) freshMaster
    (exampleSnapshot "m1" "" "") (exampleSnapshot "m1" "" "ubuntu") twoMasters
    ⟨"Canonical", "UbuntuServer", "16.04-LTS", "latest"⟩ rfl rfl rfl rfl rfl rfl

/-- C9, at four inputs: `Actual` panics when a successful `Get` answers a scale set
whose `ID` is nil (after issuing the `Get`); `Apply` panics when the expected or the
actual resource is not a `*VMScaleSet`; `Delete` panics when the actual resource is
not a `*VMScaleSet`.  None of them returns an error value there. -/
theorem driver_panics_on_unchecked_input :
    Actual (exampleDeps (okSdk none)) (exampleDriver provisionedMaster) convergedCluster =
      ⟨[.get "demo" "m1"], .panicked⟩ ∧
    Apply (exampleDeps (okSdk none)) (exampleDriver freshMaster)
      (.vmScaleSet (exampleSnapshot "m1" "" "")) (.other "ResourceGroup") twoMasters =
      ⟨[], .panicked⟩ ∧
    Apply (exampleDeps (okSdk none)) (exampleDriver freshMaster)
      (.other "ResourceGroup") (.vmScaleSet (exampleSnapshot "m1" "" "ubuntu")) twoMasters =
      ⟨[], .panicked⟩ ∧
    Delete (exampleDeps (okSdk none)) (exampleDriver freshMaster) (.other "ResourceGroup")
      twoMasters = ⟨[], .panicked⟩ :=
  ⟨rfl, rfl, rfl, rfl⟩

/-- C10, at a master pool whose subnet has backend-pool IDs `a`, `b` and NAT-pool
IDs `n1`, `n2`: the submitted request carries one IP configuration for the subnet,
but both of its backend-pool references read `b` and both of its NAT-pool
references read `n2`, since every reference holds the address of the one loop
variable. -/
theorem apply_pool_references_alias_last_id :
    (Apply (exampleDeps (okSdk none))
      (exampleDriver (examplePool "m1" "master" "" "ubuntu"
        [exampleSubnet "subnet-1" ["a", "b"] ["n1", "n2"]]))
      (.vmScaleSet (exampleSnapshot "m1" "" "")) (.vmScaleSet (exampleSnapshot "m1" "" "ubuntu"))
      twoBackends).events.map Event.wiredSubnets =
      [[], [], [[{ Name := "m1", SubnetID := "subnet-1", BackendIDs := ["b", "b"],
                   NATIDs := ["n2", "n2"] }]]] := by
  decide

end Kubicorn
